import Mathlib

/-!
Verification of the Q-MacroAgent UI core against its specification.

The definitions below are shallow embeddings of the TypeScript source:
  - `JsStr`            : JavaScript string primitives (`includes`, `trim`,
                         `startsWith`, `||` defaulting, truthiness) modelled on
                         character lists so that everything kernel-reduces.
  - `Types`            : the shared data model (queries, briefing flags,
                         research state, phases).
  - `Handlers`         : `checkForFinalReport` and `resetResearch`
                         (src/ui/src/utils/handlers.ts).
  - `QuantumBatchPage` : the WebSocket `onmessage` / `onerror` / `onclose`
                         handlers of the quantum batch page and the
                         reconnection constants (src/ui/src/utils/constants.ts).
  - `QuantumBatchForm` : `addCompany` / `removeCompany` / `updateCompany` /
                         `handleSubmit` (src/ui/src/components/QuantumBatchForm.tsx).
  - `LocationInput`    : the `loadGoogleMapsScript` init-once state machine
                         (src/ui/src/components/LocationInput.tsx).
  - `ResearchQueries`  : the category sections of the queries panel
                         (src/ui/src/components/ResearchQueries.tsx).
-/

namespace JsStr

/-- Character-list test that the first list begins with the second. -/
def beginsWith : List Char → List Char → Bool
  | _, [] => true
  | [], _ :: _ => false
  | c :: cs, d :: ds => c == d && beginsWith cs ds

/-- Occurrence of `pat` as a contiguous run inside the second list. -/
def includesChars (pat : List Char) : List Char → Bool
  | [] => beginsWith [] pat
  | c :: t => beginsWith (c :: t) pat || includesChars pat t

/-- Model of JavaScript `hay.includes(pat)`. -/
def includes (hay pat : String) : Bool :=
  includesChars pat.data hay.data

/-- Model of JavaScript `s.startsWith(pre)`. -/
def startsWith (s pre : String) : Bool :=
  beginsWith s.data pre.data

/-- Whitespace characters removed by `String.prototype.trim`. -/
def isJsSpace (c : Char) : Bool :=
  c == ' ' || c == '\t' || c == '\n' || c == '\r'

/-- Model of JavaScript `s.trim()`. -/
def trim (s : String) : String :=
  ⟨((s.data.dropWhile isJsSpace).reverse.dropWhile isJsSpace).reverse⟩

/-- JavaScript truthiness of an optional string field
(`undefined`, `null` and `""` are falsy). -/
def truthy : Option String → Bool
  | none => false
  | some s => !(s == "")

/-- JavaScript `a || d` for an optional string field with default `d`. -/
def orDefault : Option String → String → String
  | none, d => d
  | some s, d => if s == "" then d else s

end JsStr

namespace Types

/-- A finalized research query (category and text, the fields the panel reads). -/
structure Query where
  category : String
  text : String
deriving DecidableEq

/-- A query still streaming in (only its text is rendered). -/
structure StreamingQuery where
  text : String
deriving DecidableEq

/-- Per-category briefing completion flags. -/
structure BriefingStatus where
  company : Bool
  industry : Bool
  financial : Bool
  news : Bool
deriving DecidableEq

/-- The aggregate research state object managed by the main page. -/
structure ResearchState where
  status : String
  message : String
  queries : List Query
  streamingQueries : List (String × StreamingQuery)
  briefingStatus : BriefingStatus
deriving DecidableEq

/-- The phase union type `'search' | 'enrichment' | 'briefing' | 'complete'`. -/
inductive Phase
  | search
  | enrichment
  | briefing
  | complete
deriving DecidableEq

/-- The research output object (`summary` plus `details.report`). -/
structure ResearchOutput where
  summary : String
  report : String
deriving DecidableEq

/-- The status banner object (`step` and `message`). -/
structure ResearchStatusType where
  step : String
  message : String
deriving DecidableEq

end Types

namespace Handlers

open Types

/-- Body of one poll response from `/research/status/:jobId`:
its `status` string and the optional `result.report` payload
(`none` covers both a missing `result` and a missing `report`). -/
structure PollData where
  status : String
  resultReport : Option String
deriving DecidableEq

/-- The observer-side state read and written by `checkForFinalReport`:
the React state setters it receives plus the polling interval ref. -/
structure ObserverState where
  output : Option ResearchOutput
  status : Option ResearchStatusType
  isComplete : Bool
  isResearching : Bool
  currentPhase : Option Phase
  hasFinalReport : Bool
  pollingInterval : Option Nat
deriving DecidableEq

/-- Shallow embedding of `checkForFinalReport` (src/ui/src/utils/handlers.ts,
lines 75-116): the state updates performed when one successfully fetched poll
response is processed. -/
def checkForFinalReport (data : PollData) (s : ObserverState) : ObserverState :=
  if data.status = "completed" ∧ JsStr.truthy data.resultReport = true then
    { s with
      output := some { summary := "", report := data.resultReport.getD "" }
      status := some { step := "Complete", message := "Research completed successfully" }
      isComplete := true
      isResearching := false
      currentPhase := some Phase.complete
      hasFinalReport := true
      pollingInterval := none }
  else s

/-- The application state touched by `resetResearch`: exactly the fields whose
setters it receives. -/
structure AppState where
  status : Option ResearchStatusType
  output : Option ResearchOutput
  error : Option String
  isComplete : Bool
  researchState : ResearchState
  pdfUrl : Option String
  currentPhase : Option Phase
  isSearchPhase : Bool
  shouldShowQueries : Bool
  isQueriesExpanded : Bool
  isBriefingExpanded : Bool
  isEnrichmentExpanded : Bool
  isResetting : Bool
  hasScrolledToStatus : Bool
deriving DecidableEq

/-- The idle research-state literal written by `resetResearch`. -/
def initialResearchState : ResearchState :=
  { status := "idle"
    message := ""
    queries := []
    streamingQueries := []
    briefingStatus := { company := false, industry := false, financial := false, news := false } }

/-- Shallow embedding of `resetResearch` (src/ui/src/utils/handlers.ts,
lines 118-164): the state once the timeout body has run (`isResetting` is set
true and then false again inside the timeout). -/
def resetResearch (_s : AppState) : AppState :=
  { status := none
    output := none
    error := none
    isComplete := false
    researchState := initialResearchState
    pdfUrl := none
    currentPhase := none
    isSearchPhase := false
    shouldShowQueries := false
    isQueriesExpanded := true
    isBriefingExpanded := true
    isEnrichmentExpanded := true
    isResetting := false
    hasScrolledToStatus := false }

/-- The fully idle application state the claim describes. -/
def idleAppState : AppState :=
  { status := none
    output := none
    error := none
    isComplete := false
    researchState := initialResearchState
    pdfUrl := none
    currentPhase := none
    isSearchPhase := false
    shouldShowQueries := false
    isQueriesExpanded := true
    isBriefingExpanded := true
    isEnrichmentExpanded := true
    isResetting := false
    hasScrolledToStatus := false }

end Handlers

namespace QuantumBatchPage

/-- One parsed WebSocket message (`JSON.parse(event.data)`): the fields the
onmessage handler reads. The `result` payload is kept opaque. -/
structure WsMsg where
  status : Option String
  message : Option String
  result : Option String
deriving DecidableEq

/-- The quantum batch page state touched by the WebSocket handlers. -/
structure QBState where
  isResearching : Bool
  status : String
  message : String
  currentPhase : String
  progress : Nat
  results : Option String
  error : Option String
deriving DecidableEq

/-- Phase extraction from the free-text status message
(src/unnamed/part_002, lines 155-172): the if/else chain in source order. -/
def applyPhase (m : String) (s : QBState) : QBState :=
  if JsStr.includes m "Collecting high-quality data" then
    { s with currentPhase := "data_collection", progress := 20 }
  else if JsStr.includes m "Quantum encoding" then
    { s with currentPhase := "quantum_encoding", progress := 40 }
  else if JsStr.includes m "parallel processing" then
    { s with currentPhase := "quantum_processing", progress := 60 }
  else if JsStr.includes m "Generating quantum-enhanced" then
    { s with currentPhase := "report_generation", progress := 80 }
  else if JsStr.includes m "completed" then
    { s with currentPhase := "knowledge_base", progress := 100 }
  else s

/-- First two state updates of the onmessage handler:
`setStatus(data.status || 'processing')` and `setMessage(data.message || '')`. -/
def setStatusMessage (data : WsMsg) (s : QBState) : QBState :=
  { s with
    status := JsStr.orDefault data.status "processing"
    message := JsStr.orDefault data.message "" }

/-- The `if (data.message)` phase-extraction block of the onmessage handler. -/
def phaseBlock (data : WsMsg) (s : QBState) : QBState :=
  if JsStr.truthy data.message then applyPhase (data.message.getD "") s else s

/-- Shallow embedding of the quantum batch page onmessage handler
(src/unnamed/part_002, lines 146-185), after a successful `JSON.parse`. -/
def onMessage (data : WsMsg) (s : QBState) : QBState :=
  let s2 := phaseBlock data (setStatusMessage data s)
  if data.status = some "completed" then
    { s2 with isResearching := false, results := data.result, progress := 100 }
  else if data.status = some "failed" ∨ data.status = some "error" then
    { s2 with isResearching := false, error := some (JsStr.orDefault data.message "Analysis failed") }
  else s2

/-- Side effects a WebSocket lifecycle handler could perform besides state
updates: logging to the console, or opening a new socket (reconnecting). -/
inductive WsEffect
  | consoleLog (msg : String)
  | openSocket (url : String)
deriving DecidableEq

/-- Whether an effect opens a new WebSocket connection. -/
def opensSocket : WsEffect → Bool
  | WsEffect.openSocket _ => true
  | WsEffect.consoleLog _ => false

/-- Shallow embedding of the quantum batch page onerror handler
(src/unnamed/part_002, lines 187-190): it logs and records an error message. -/
def onError (s : QBState) : QBState × List WsEffect :=
  ({ s with error := some "WebSocket connection error" },
   [WsEffect.consoleLog "WebSocket error:"])

/-- Shallow embedding of the quantum batch page onclose handler
(src/unnamed/part_002, lines 192-194): it only logs. -/
def onClose (s : QBState) : QBState × List WsEffect :=
  (s, [WsEffect.consoleLog "WebSocket connection closed"])

/-- Claim-side transcription of the phase table: the phase the claim says a
message text selects, with `old` kept when nothing matches. -/
def claimPhaseOf (m : String) (old : String) : String :=
  if JsStr.includes m "Collecting high-quality data" then "data_collection"
  else if JsStr.includes m "Quantum encoding" then "quantum_encoding"
  else if JsStr.includes m "parallel processing" then "quantum_processing"
  else if JsStr.includes m "Generating quantum-enhanced" then "report_generation"
  else if JsStr.includes m "completed" then "knowledge_base"
  else old

/-- Claim-side transcription of the progress table: the progress the claim says
a message text selects, with `old` kept when nothing matches. -/
def claimProgressOf (m : String) (old : Nat) : Nat :=
  if JsStr.includes m "Collecting high-quality data" then 20
  else if JsStr.includes m "Quantum encoding" then 40
  else if JsStr.includes m "parallel processing" then 60
  else if JsStr.includes m "Generating quantum-enhanced" then 80
  else if JsStr.includes m "completed" then 100
  else old

end QuantumBatchPage

namespace Constants

/-- WebSocket configuration constant (src/ui/src/utils/constants.ts, line 6). -/
def MAX_RECONNECT_ATTEMPTS : Nat := 3

/-- WebSocket configuration constant in milliseconds
(src/ui/src/utils/constants.ts, line 7). -/
def RECONNECT_DELAY : Nat := 2000

end Constants

namespace QuantumBatchForm

/-- One company row of the batch form. -/
structure Company where
  name : String
  industry : String
  company_url : String
  hq_location : String
deriving DecidableEq

/-- The blank company row appended by `addCompany`. -/
def emptyCompany : Company :=
  { name := "", industry := "", company_url := "", hq_location := "" }

/-- Initial `companies` state: a single blank row
(src/ui/src/components/QuantumBatchForm.tsx, lines 35-37). -/
def initialCompanies : List Company := [emptyCompany]

/-- The quantum settings state of the form. -/
structure QuantumSettings where
  quantum_enabled : Bool
  max_companies : Nat
  quantum_layers : Nat
  quantum_shots : Nat
deriving DecidableEq

/-- Initial quantum settings (src/ui/src/components/QuantumBatchForm.tsx,
lines 39-44). -/
def initialQuantumSettings : QuantumSettings :=
  { quantum_enabled := true, max_companies := 8, quantum_layers := 3, quantum_shots := 1000 }

/-- Shallow embedding of `addCompany` (QuantumBatchForm.tsx, lines 48-52). -/
def addCompany (companies : List Company) (max_companies : Nat) : List Company :=
  if companies.length < max_companies then companies ++ [emptyCompany] else companies

/-- Shallow embedding of `removeCompany` (QuantumBatchForm.tsx, lines 54-58):
the index-based filter keeps every row whose position differs from `index`. -/
def removeCompany (companies : List Company) (index : Nat) : List Company :=
  if companies.length > 1 then
    (companies.enum.filter (fun p => p.1 != index)).map Prod.snd
  else companies

/-- The four editable fields of a company row. -/
inductive CompanyField
  | name
  | industry
  | company_url
  | hq_location
deriving DecidableEq

/-- Field update used by `updateCompany`. -/
def setField (c : Company) : CompanyField → String → Company
  | CompanyField.name, v => { c with name := v }
  | CompanyField.industry, v => { c with industry := v }
  | CompanyField.company_url, v => { c with company_url := v }
  | CompanyField.hq_location, v => { c with hq_location := v }

/-- Shallow embedding of `updateCompany` (QuantumBatchForm.tsx, lines 60-65). -/
def updateCompany (companies : List Company) (index : Nat) (field : CompanyField)
    (value : String) : List Company :=
  (companies.enum.map (fun p => if p.1 = index then setField p.2 field value else p.2))

/-- The submitted payload shape. -/
structure QuantumBatchFormData where
  companies : List Company
  quantum_enabled : Bool
  max_companies : Nat
  quantum_layers : Nat
  quantum_shots : Nat
deriving DecidableEq

/-- Shallow embedding of `handleSubmit` (QuantumBatchForm.tsx, lines 67-84):
`none` when validation rejects the form and no `onSubmit` call is made,
otherwise the payload passed to `onSubmit`. -/
def handleSubmit (companies : List Company) (settings : QuantumSettings) :
    Option QuantumBatchFormData :=
  let validCompanies := companies.filter (fun c => decide (JsStr.trim c.name ≠ ""))
  if validCompanies.length = 0 then none
  else some
    { companies := validCompanies
      quantum_enabled := settings.quantum_enabled
      max_companies := settings.max_companies
      quantum_layers := settings.quantum_layers
      quantum_shots := settings.quantum_shots }

/-- One user operation on the companies list. The cap carried by `add` is the
`max_companies` setting in force at the time of the call. -/
inductive FormOp
  | add (cap : Nat)
  | remove (index : Nat)
  | update (index : Nat) (field : CompanyField) (value : String)
deriving DecidableEq

/-- Applying one operation to the companies list. -/
def applyFormOp (companies : List Company) : FormOp → List Company
  | FormOp.add cap => addCompany companies cap
  | FormOp.remove i => removeCompany companies i
  | FormOp.update i f v => updateCompany companies i f v

/-- The companies list after a sequence of operations from the initial state. -/
def runFormOps (ops : List FormOp) : List Company :=
  ops.foldl applyFormOp initialCompanies

end QuantumBatchForm

namespace LocationInput

/-- The module-level loader state of LocationInput.tsx plus the parts of the
environment the loader reads and writes: `googleAvail` models
`window.google?.maps?.places` being present, `scriptInDoc` models the
`querySelector` test for a Maps script tag in the document, `watcherActive`
models a running `checkInterval`, and `appendCount` counts the script elements
the loader has appended. Each created promise gets a fresh identifier. -/
structure GState where
  isScriptLoaded : Bool
  isScriptLoading : Bool
  scriptLoadPromise : Option Nat
  googleAvail : Bool
  scriptInDoc : Bool
  apiKeyPresent : Bool
  watcherActive : Bool
  nextPromiseId : Nat
  appendCount : Nat
deriving DecidableEq

/-- What one call of `loadGoogleMapsScript` returns: a fresh
`Promise.resolve()`, or the stored `scriptLoadPromise` with its identifier. -/
inductive LoadResult
  | resolvedFresh
  | promise (id : Nat)
deriving DecidableEq

/-- Shallow embedding of `loadGoogleMapsScript` (LocationInput.tsx, lines
22-106): one synchronous call, including the synchronous part of the promise
executor. The rejection paths leave the same stored promise behind, so they
also return `promise` (a rejected one). -/
def loadGoogleMapsScript (s : GState) : GState × LoadResult :=
  if s.isScriptLoaded = true ∧ s.googleAvail = true then
    (s, LoadResult.resolvedFresh)
  else if s.isScriptLoading = true ∧ s.scriptLoadPromise.isSome = true then
    (s, LoadResult.promise (s.scriptLoadPromise.getD 0))
  else if s.scriptInDoc = true ∧ s.googleAvail = true then
    ({ s with isScriptLoaded := true }, LoadResult.resolvedFresh)
  else if s.googleAvail = true then
    ({ s with
        isScriptLoaded := true
        isScriptLoading := false
        scriptLoadPromise := some s.nextPromiseId
        nextPromiseId := s.nextPromiseId + 1 },
     LoadResult.promise s.nextPromiseId)
  else if s.scriptInDoc = false then
    if s.apiKeyPresent = false then
      ({ s with
          isScriptLoading := false
          scriptLoadPromise := some s.nextPromiseId
          nextPromiseId := s.nextPromiseId + 1 },
       LoadResult.promise s.nextPromiseId)
    else
      ({ s with
          isScriptLoading := true
          scriptLoadPromise := some s.nextPromiseId
          nextPromiseId := s.nextPromiseId + 1
          scriptInDoc := true
          appendCount := s.appendCount + 1 },
       LoadResult.promise s.nextPromiseId)
  else
    ({ s with
        isScriptLoading := true
        scriptLoadPromise := some s.nextPromiseId
        nextPromiseId := s.nextPromiseId + 1
        watcherActive := true },
     LoadResult.promise s.nextPromiseId)

/-- Events of the loader's environment: a component calling the loader, the
appended script's `initGoogleMapsCallback` firing, the script's `onerror`
firing, one tick of the `checkInterval`, the ten-second timeout, and the Maps
API appearing on `window`. -/
inductive GEvent
  | call
  | scriptCallback
  | scriptError
  | watcherTick
  | watcherTimeout
  | googleArrives
deriving DecidableEq

/-- One step of the loader's environment. -/
def gStep (s : GState) : GEvent → GState
  | GEvent.call => (loadGoogleMapsScript s).1
  | GEvent.scriptCallback =>
      if s.scriptInDoc then
        { s with isScriptLoaded := true, isScriptLoading := false, googleAvail := true }
      else s
  | GEvent.scriptError =>
      if s.scriptInDoc then
        { s with isScriptLoading := false, scriptLoadPromise := none }
      else s
  | GEvent.watcherTick =>
      if s.watcherActive && s.googleAvail then
        { s with isScriptLoaded := true, isScriptLoading := false, watcherActive := false }
      else s
  | GEvent.watcherTimeout =>
      if s.watcherActive then
        if s.isScriptLoaded then { s with watcherActive := false }
        else { s with watcherActive := false, isScriptLoading := false }
      else s
  | GEvent.googleArrives => { s with googleAvail := true }

/-- Initial loader state: module-level variables at their declared values, with
the given environment (API availability, a pre-existing script tag, the key). -/
def initG (googleAvail scriptInDoc apiKeyPresent : Bool) : GState :=
  { isScriptLoaded := false
    isScriptLoading := false
    scriptLoadPromise := none
    googleAvail := googleAvail
    scriptInDoc := scriptInDoc
    apiKeyPresent := apiKeyPresent
    watcherActive := false
    nextPromiseId := 0
    appendCount := 0 }

/-- The loader state after a sequence of events. -/
def runG (s0 : GState) (events : List GEvent) : GState :=
  events.foldl gStep s0

/-- Inductive invariant of the loader state machine. -/
def GInv (s : GState) : Prop :=
  s.appendCount ≤ 1
  ∧ (s.appendCount = 1 → s.scriptInDoc = true)
  ∧ (s.isScriptLoaded = true → s.googleAvail = true)
  ∧ (s.isScriptLoading = true → s.isScriptLoaded = false)
  ∧ (s.isScriptLoading = true → s.scriptLoadPromise.isSome = true)

end LocationInput

namespace ResearchQueries

open Types

/-- The fixed category list of the queries panel. -/
def categories : List String := ["company", "industry", "financial", "news"]

/-- One rendered entry of a category section. -/
inductive RenderedItem
  | streaming (key : String) (text : String)
  | final (text : String)
deriving DecidableEq

/-- The two kinds of rendered entries. -/
inductive ItemKind
  | streaming
  | final
deriving DecidableEq

/-- The kind of a rendered entry. -/
def kindOf : RenderedItem → ItemKind
  | RenderedItem.streaming _ _ => ItemKind.streaming
  | RenderedItem.final _ => ItemKind.final

/-- Shallow embedding of one category section of ResearchQueries.tsx (lines
45-63): streaming queries whose key starts with the category name first, then
finalized queries whose category starts with the category name. -/
def renderedSection (category : String) (streamingQueries : List (String × StreamingQuery))
    (queries : List Query) : List RenderedItem :=
  ((streamingQueries.filter (fun kv => JsStr.startsWith kv.1 category)).map
      (fun kv => RenderedItem.streaming kv.1 kv.2.text))
    ++ ((queries.filter (fun q => JsStr.startsWith q.category category)).map
      (fun q => RenderedItem.final q.text))

/-- The count shown by the collapsed summary (ResearchQueries.tsx, line 71). -/
def collapsedSummaryCount (queries : List Query) : Nat :=
  queries.length

end ResearchQueries

/-! Theorems. -/

/-- Claim C1 (counterexample): a poll response with terminal status `"failed"` is
ignored by `checkForFinalReport`: the observer state is completely unchanged,
`isResearching` stays true and the polling interval is not cleared, so the
terminal state is not surfaced and polling is not stopped. -/
theorem checkForFinalReport_failed_poll_ignored :
    Handlers.checkForFinalReport { status := "failed", resultReport := none }
        { output := none, status := none, isComplete := false, isResearching := true,
          currentPhase := some Types.Phase.enrichment, hasFinalReport := false,
          pollingInterval := some 1 }
      = { output := none, status := none, isComplete := false, isResearching := true,
          currentPhase := some Types.Phase.enrichment, hasFinalReport := false,
          pollingInterval := some 1 }
    ∧ (Handlers.checkForFinalReport { status := "failed", resultReport := none }
        { output := none, status := none, isComplete := false, isResearching := true,
          currentPhase := some Types.Phase.enrichment, hasFinalReport := false,
          pollingInterval := some 1 }).pollingInterval = some 1
    ∧ (Handlers.checkForFinalReport { status := "failed", resultReport := none }
        { output := none, status := none, isComplete := false, isResearching := true,
          currentPhase := some Types.Phase.enrichment, hasFinalReport := false,
          pollingInterval := some 1 }).isResearching = true := by
  refine ⟨?_, ?_, ?_⟩ <;> decide

/-- Claim C1 (amended): processing a poll response with status `"completed"` and a
non-empty `result.report` sets the output to that report, the phase to
complete, `isComplete` to true, `isResearching` to false and clears the polling
interval; every other poll response (including terminal status `"failed"`)
leaves the observer state, and hence the polling interval, unchanged. -/
theorem checkForFinalReport_completed_spec (d : Handlers.PollData)
    (s : Handlers.ObserverState) :
    (d.status = "completed" → JsStr.truthy d.resultReport = true →
      (Handlers.checkForFinalReport d s).output
          = some { summary := "", report := d.resultReport.getD "" }
      ∧ (Handlers.checkForFinalReport d s).currentPhase = some Types.Phase.complete
      ∧ (Handlers.checkForFinalReport d s).isComplete = true
      ∧ (Handlers.checkForFinalReport d s).isResearching = false
      ∧ (Handlers.checkForFinalReport d s).hasFinalReport = true
      ∧ (Handlers.checkForFinalReport d s).pollingInterval = none)
    ∧ (¬ (d.status = "completed" ∧ JsStr.truthy d.resultReport = true) →
      Handlers.checkForFinalReport d s = s) := by
  constructor
  · intro h1 h2
    simp [Handlers.checkForFinalReport, h1, h2]
  · intro h
    simp only [Handlers.checkForFinalReport, if_neg h]

/-- Witness for C1: the amended theorem applied to a concrete completed poll
response and to a concrete failed one. -/
theorem checkForFinalReport_completed_spec_witness :
    (Handlers.checkForFinalReport { status := "completed", resultReport := some "R" }
        { output := none, status := none, isComplete := false, isResearching := true,
          currentPhase := some Types.Phase.enrichment, hasFinalReport := false,
          pollingInterval := some 1 }).pollingInterval = none
    ∧ Handlers.checkForFinalReport { status := "pending", resultReport := none }
        { output := none, status := none, isComplete := false, isResearching := true,
          currentPhase := some Types.Phase.enrichment, hasFinalReport := false,
          pollingInterval := some 1 }
      = { output := none, status := none, isComplete := false, isResearching := true,
          currentPhase := some Types.Phase.enrichment, hasFinalReport := false,
          pollingInterval := some 1 } :=
  ⟨((checkForFinalReport_completed_spec
      { status := "completed", resultReport := some "R" }
      { output := none, status := none, isComplete := false, isResearching := true,
        currentPhase := some Types.Phase.enrichment, hasFinalReport := false,
        pollingInterval := some 1 }).1 rfl (by decide)).2.2.2.2.2,
   (checkForFinalReport_completed_spec
      { status := "pending", resultReport := none }
      { output := none, status := none, isComplete := false, isResearching := true,
        currentPhase := some Types.Phase.enrichment, hasFinalReport := false,
        pollingInterval := some 1 }).2 (by decide)⟩

/-- Claim C10: resetResearch restores the complete idle state regardless of the
prior state: status, output, error and pdfUrl become none, isComplete false,
currentPhase none, the research state becomes the initial idle value, and the
result does not depend on the previous state in any field. -/
theorem resetResearch_restores_idle (s s2 : Handlers.AppState) :
    Handlers.resetResearch s = Handlers.idleAppState
    ∧ (Handlers.resetResearch s).status = none
    ∧ (Handlers.resetResearch s).output = none
    ∧ (Handlers.resetResearch s).error = none
    ∧ (Handlers.resetResearch s).pdfUrl = none
    ∧ (Handlers.resetResearch s).isComplete = false
    ∧ (Handlers.resetResearch s).currentPhase = none
    ∧ (Handlers.resetResearch s).researchState = Handlers.initialResearchState
    ∧ (Handlers.resetResearch s).researchState.status = "idle"
    ∧ (Handlers.resetResearch s).researchState.message = ""
    ∧ (Handlers.resetResearch s).researchState.queries = []
    ∧ (Handlers.resetResearch s).researchState.streamingQueries = []
    ∧ (Handlers.resetResearch s).researchState.briefingStatus
        = { company := false, industry := false, financial := false, news := false }
    ∧ Handlers.resetResearch s = Handlers.resetResearch s2 := by
  simp [Handlers.resetResearch, Handlers.idleAppState, Handlers.initialResearchState]

/-- Claim C4 (counterexample): on the quantum batch page, closing the WebSocket does
not trigger any reconnection: the onclose handler leaves the state completely
unchanged and emits no connection-opening effect, and the onerror handler emits
no connection-opening effect either — the stream is abandoned rather than
retried. -/
theorem qb_onClose_performs_no_reconnect :
    (QuantumBatchPage.onClose
        { isResearching := true, status := "processing", message := "",
          currentPhase := "quantum_encoding", progress := 40, results := none,
          error := none }).1
      = { isResearching := true, status := "processing", message := "",
          currentPhase := "quantum_encoding", progress := 40, results := none,
          error := none }
    ∧ ((QuantumBatchPage.onClose
        { isResearching := true, status := "processing", message := "",
          currentPhase := "quantum_encoding", progress := 40, results := none,
          error := none }).2.any QuantumBatchPage.opensSocket) = false
    ∧ ((QuantumBatchPage.onError
        { isResearching := true, status := "processing", message := "",
          currentPhase := "quantum_encoding", progress := 40, results := none,
          error := none }).2.any QuantumBatchPage.opensSocket) = false := by
  refine ⟨?_, ?_, ?_⟩ <;> decide

/-- Claim C4 (amended): the constants MAX_RECONNECT_ATTEMPTS = 3 and
RECONNECT_DELAY = 2000 ms are defined, but the quantum batch page's WebSocket
session does not use them: on transport error the page only records the error
message "WebSocket connection error", and on closure it changes nothing;
neither handler opens a new connection, so there is no retry behaviour. -/
theorem qb_ws_no_reconnection (s : QuantumBatchPage.QBState) :
    Constants.MAX_RECONNECT_ATTEMPTS = 3
    ∧ Constants.RECONNECT_DELAY = 2000
    ∧ (QuantumBatchPage.onClose s).1 = s
    ∧ ((QuantumBatchPage.onClose s).2.any QuantumBatchPage.opensSocket) = false
    ∧ (QuantumBatchPage.onError s).1 = { s with error := some "WebSocket connection error" }
    ∧ ((QuantumBatchPage.onError s).2.any QuantumBatchPage.opensSocket) = false := by
  simp [Constants.MAX_RECONNECT_ATTEMPTS, Constants.RECONNECT_DELAY,
    QuantumBatchPage.onClose, QuantumBatchPage.onError, QuantumBatchPage.opensSocket]

/-- The phase chain writes the phase the claim table predicts. -/
theorem qb_applyPhase_currentPhase (m : String) (s : QuantumBatchPage.QBState) :
    (QuantumBatchPage.applyPhase m s).currentPhase
      = QuantumBatchPage.claimPhaseOf m s.currentPhase := by
  unfold QuantumBatchPage.applyPhase QuantumBatchPage.claimPhaseOf
  split_ifs <;> rfl

/-- The phase chain writes the progress the claim table predicts. -/
theorem qb_applyPhase_progress (m : String) (s : QuantumBatchPage.QBState) :
    (QuantumBatchPage.applyPhase m s).progress
      = QuantumBatchPage.claimProgressOf m s.progress := by
  unfold QuantumBatchPage.applyPhase QuantumBatchPage.claimProgressOf
  split_ifs <;> rfl

/-- The phase chain only touches phase and progress. -/
theorem qb_applyPhase_others (m : String) (s : QuantumBatchPage.QBState) :
    (QuantumBatchPage.applyPhase m s).isResearching = s.isResearching
    ∧ (QuantumBatchPage.applyPhase m s).results = s.results
    ∧ (QuantumBatchPage.applyPhase m s).error = s.error := by
  unfold QuantumBatchPage.applyPhase
  split_ifs <;> exact ⟨rfl, rfl, rfl⟩

/-- An empty message text matches none of the phase patterns. -/
theorem qb_claimPhaseOf_empty (old : String) :
    QuantumBatchPage.claimPhaseOf "" old = old := by
  have h1 : JsStr.includes "" "Collecting high-quality data" = false := by decide
  have h2 : JsStr.includes "" "Quantum encoding" = false := by decide
  have h3 : JsStr.includes "" "parallel processing" = false := by decide
  have h4 : JsStr.includes "" "Generating quantum-enhanced" = false := by decide
  have h5 : JsStr.includes "" "completed" = false := by decide
  simp [QuantumBatchPage.claimPhaseOf, h1, h2, h3, h4, h5]

/-- An empty message text selects no progress value. -/
theorem qb_claimProgressOf_empty (old : Nat) :
    QuantumBatchPage.claimProgressOf "" old = old := by
  have h1 : JsStr.includes "" "Collecting high-quality data" = false := by decide
  have h2 : JsStr.includes "" "Quantum encoding" = false := by decide
  have h3 : JsStr.includes "" "parallel processing" = false := by decide
  have h4 : JsStr.includes "" "Generating quantum-enhanced" = false := by decide
  have h5 : JsStr.includes "" "completed" = false := by decide
  simp [QuantumBatchPage.claimProgressOf, h1, h2, h3, h4, h5]

/-- The guarded phase block writes the phase the claim table predicts for the
defaulted message text. -/
theorem qb_phaseBlock_currentPhase (d : QuantumBatchPage.WsMsg) (t : QuantumBatchPage.QBState) :
    (QuantumBatchPage.phaseBlock d t).currentPhase
      = QuantumBatchPage.claimPhaseOf (JsStr.orDefault d.message "") t.currentPhase := by
  unfold QuantumBatchPage.phaseBlock
  cases hd : d.message with
  | none => simp [JsStr.truthy, JsStr.orDefault, qb_claimPhaseOf_empty]
  | some m =>
    by_cases hm : m = ""
    · subst hm
      simp [JsStr.truthy, JsStr.orDefault, qb_claimPhaseOf_empty]
    · simp [JsStr.truthy, JsStr.orDefault, hm, qb_applyPhase_currentPhase]

/-- The guarded phase block writes the progress the claim table predicts for
the defaulted message text. -/
theorem qb_phaseBlock_progress (d : QuantumBatchPage.WsMsg) (t : QuantumBatchPage.QBState) :
    (QuantumBatchPage.phaseBlock d t).progress
      = QuantumBatchPage.claimProgressOf (JsStr.orDefault d.message "") t.progress := by
  unfold QuantumBatchPage.phaseBlock
  cases hd : d.message with
  | none => simp [JsStr.truthy, JsStr.orDefault, qb_claimProgressOf_empty]
  | some m =>
    by_cases hm : m = ""
    · subst hm
      simp [JsStr.truthy, JsStr.orDefault, qb_claimProgressOf_empty]
    · simp [JsStr.truthy, JsStr.orDefault, hm, qb_applyPhase_progress]

/-- The guarded phase block only touches phase and progress. -/
theorem qb_phaseBlock_others (d : QuantumBatchPage.WsMsg) (t : QuantumBatchPage.QBState) :
    (QuantumBatchPage.phaseBlock d t).isResearching = t.isResearching
    ∧ (QuantumBatchPage.phaseBlock d t).results = t.results
    ∧ (QuantumBatchPage.phaseBlock d t).error = t.error := by
  unfold QuantumBatchPage.phaseBlock
  split_ifs
  · exact qb_applyPhase_others _ _
  · exact ⟨rfl, rfl, rfl⟩

/-- Claim C2 (counterexample): the message text "xyz" matches none of the five
patterns, yet processing a message with that text and status "completed"
changes the displayed progress from 0 to 100, so a non-matching message does
not always leave progress unchanged. -/
theorem qbOnMessage_nonmatching_changes_progress :
    JsStr.includes "xyz" "Collecting high-quality data" = false
    ∧ JsStr.includes "xyz" "Quantum encoding" = false
    ∧ JsStr.includes "xyz" "parallel processing" = false
    ∧ JsStr.includes "xyz" "Generating quantum-enhanced" = false
    ∧ JsStr.includes "xyz" "completed" = false
    ∧ (QuantumBatchPage.onMessage
        { status := some "completed", message := some "xyz", result := none }
        { isResearching := true, status := "processing", message := "",
          currentPhase := "data_collection", progress := 0, results := none,
          error := none }).progress = 100
    ∧ (QuantumBatchPage.onMessage
        { status := some "completed", message := some "xyz", result := none }
        { isResearching := true, status := "processing", message := "",
          currentPhase := "data_collection", progress := 0, results := none,
          error := none }).currentPhase = "data_collection" := by
  refine ⟨?_, ?_, ?_, ?_, ?_, ?_, ?_⟩ <;> decide

/-- Claim C2 (amended): the displayed phase is derived from the free-text message by
the five substring patterns tested in source order with the first match
winning, and a non-matching (or absent) message leaves the phase unchanged;
progress follows the same table, except that a message whose status field is
"completed" always forces progress to 100 regardless of its text. -/
theorem qbOnMessage_phase_progress (d : QuantumBatchPage.WsMsg)
    (s : QuantumBatchPage.QBState) :
    (QuantumBatchPage.onMessage d s).currentPhase
      = QuantumBatchPage.claimPhaseOf (JsStr.orDefault d.message "") s.currentPhase
    ∧ (QuantumBatchPage.onMessage d s).progress
      = (if d.status = some "completed" then 100
         else QuantumBatchPage.claimProgressOf (JsStr.orDefault d.message "") s.progress) := by
  have h1 : (QuantumBatchPage.onMessage d s).currentPhase
      = (QuantumBatchPage.phaseBlock d (QuantumBatchPage.setStatusMessage d s)).currentPhase := by
    unfold QuantumBatchPage.onMessage
    split_ifs <;> rfl
  have h2 : (QuantumBatchPage.onMessage d s).progress
      = (if d.status = some "completed" then 100
         else (QuantumBatchPage.phaseBlock d (QuantumBatchPage.setStatusMessage d s)).progress) := by
    unfold QuantumBatchPage.onMessage
    split_ifs <;> rfl
  constructor
  · rw [h1, qb_phaseBlock_currentPhase]
    rfl
  · rw [h2]
    by_cases hc : d.status = some "completed"
    · simp [hc]
    · simp only [hc, if_neg, ite_false]
      rw [qb_phaseBlock_progress]
      rfl

/-- Claim C3: the onmessage handler ends the research session exactly on the
terminal statuses: isResearching becomes false when the status is "completed",
"failed" or "error" and is otherwise unchanged; on "completed" the result
payload is stored and progress is forced to 100; on "failed" or "error" the
message text (default "Analysis failed") is stored as the error; any other
status leaves results and error unchanged. -/
theorem qbOnMessage_terminal_outcomes (d : QuantumBatchPage.WsMsg)
    (s : QuantumBatchPage.QBState) :
    (QuantumBatchPage.onMessage d s).isResearching
      = (if d.status = some "completed" ∨ d.status = some "failed" ∨ d.status = some "error"
         then false else s.isResearching)
    ∧ (d.status = some "completed" →
        (QuantumBatchPage.onMessage d s).results = d.result
        ∧ (QuantumBatchPage.onMessage d s).progress = 100)
    ∧ (d.status = some "failed" ∨ d.status = some "error" →
        (QuantumBatchPage.onMessage d s).error
          = some (JsStr.orDefault d.message "Analysis failed"))
    ∧ (¬ (d.status = some "completed" ∨ d.status = some "failed" ∨ d.status = some "error") →
        (QuantumBatchPage.onMessage d s).results = s.results
        ∧ (QuantumBatchPage.onMessage d s).error = s.error) := by
  have hothers := qb_phaseBlock_others d (QuantumBatchPage.setStatusMessage d s)
  by_cases hc : d.status = some "completed"
  · have hne : ¬ (d.status = some "failed" ∨ d.status = some "error") := by
      rw [hc]
      rintro (h | h) <;> simp at h
    refine ⟨?_, fun _ => ⟨?_, ?_⟩, fun h => absurd h hne, fun h => absurd (Or.inl hc) h⟩
    · simp [QuantumBatchPage.onMessage, hc]
    · simp [QuantumBatchPage.onMessage, hc]
    · simp [QuantumBatchPage.onMessage, hc]
  · by_cases hf : d.status = some "failed" ∨ d.status = some "error"
    · refine ⟨?_, fun h => absurd h hc, fun _ => ?_, fun h => absurd (Or.inr hf) h⟩
      · simp [QuantumBatchPage.onMessage, hc, hf]
      · simp [QuantumBatchPage.onMessage, hc, hf]
    · have hall : ¬ (d.status = some "completed" ∨ d.status = some "failed"
          ∨ d.status = some "error") := by
        rintro (h | h) <;> [exact hc h; exact hf h]
      refine ⟨?_, fun h => absurd h hc, fun h => absurd h hf, fun _ => ⟨?_, ?_⟩⟩
      · simp only [QuantumBatchPage.onMessage, if_neg hc, if_neg hf, hall, if_false]
        rw [hothers.1]
        rfl
      · simp only [QuantumBatchPage.onMessage, if_neg hc, if_neg hf]
        rw [hothers.2.1]
        rfl
      · simp only [QuantumBatchPage.onMessage, if_neg hc, if_neg hf]
        rw [hothers.2.2]
        rfl

/-- Witness for C3: the theorem applied to a concrete completed message, with
the stored result and progress evaluated. -/
theorem qbOnMessage_terminal_outcomes_witness :
    (QuantumBatchPage.onMessage
        { status := some "completed", message := some "done", result := some "RES" }
        { isResearching := true, status := "processing", message := "",
          currentPhase := "", progress := 0, results := none, error := none }).results
      = some "RES"
    ∧ (QuantumBatchPage.onMessage
        { status := some "failed", message := none, result := none }
        { isResearching := true, status := "processing", message := "",
          currentPhase := "", progress := 0, results := none, error := none }).error
      = some "Analysis failed" :=
  ⟨((qbOnMessage_terminal_outcomes
      { status := some "completed", message := some "done", result := some "RES" }
      { isResearching := true, status := "processing", message := "",
        currentPhase := "", progress := 0, results := none, error := none }).2.1 rfl).1,
   (qbOnMessage_terminal_outcomes
      { status := some "failed", message := none, result := none }
      { isResearching := true, status := "processing", message := "",
        currentPhase := "", progress := 0, results := none, error := none }).2.2.1
      (Or.inl rfl)⟩

/-- Claim C5: submitting the batch form with every company name blank after trimming
performs no submission (no payload is produced), and when some name is
non-blank the submitted payload's companies list is exactly the order-
preserving sublist of companies with non-blank trimmed names, with the quantum
settings passed through unchanged. -/
theorem handleSubmit_blank_validation (companies : List QuantumBatchForm.Company)
    (settings : QuantumBatchForm.QuantumSettings) :
    ((∀ c ∈ companies, JsStr.trim c.name = "") →
      QuantumBatchForm.handleSubmit companies settings = none)
    ∧ ((∃ c ∈ companies, JsStr.trim c.name ≠ "") →
      ∃ fd, QuantumBatchForm.handleSubmit companies settings = some fd
        ∧ fd.companies = companies.filter (fun c => decide (JsStr.trim c.name ≠ ""))
        ∧ fd.companies.Sublist companies
        ∧ (∀ c ∈ fd.companies, JsStr.trim c.name ≠ "")
        ∧ fd.quantum_enabled = settings.quantum_enabled
        ∧ fd.max_companies = settings.max_companies
        ∧ fd.quantum_layers = settings.quantum_layers
        ∧ fd.quantum_shots = settings.quantum_shots) := by
  constructor
  · intro hall
    have hnil : companies.filter (fun c => decide (JsStr.trim c.name ≠ "")) = [] := by
      rw [List.filter_eq_nil_iff]
      intro c hc
      simp [hall c hc]
    simp [QuantumBatchForm.handleSubmit, hnil]
    exact hall
  · rintro ⟨c, hc, hne⟩
    have hmem : c ∈ companies.filter (fun c2 => decide (JsStr.trim c2.name ≠ "")) := by
      rw [List.mem_filter]
      exact ⟨hc, by simp [hne]⟩
    have hlen : (companies.filter (fun c2 => decide (JsStr.trim c2.name ≠ ""))).length ≠ 0 := by
      intro h0
      rw [List.length_eq_zero] at h0
      rw [h0] at hmem
      exact absurd hmem (List.not_mem_nil c)
    refine ⟨{ companies := companies.filter (fun c2 => decide (JsStr.trim c2.name ≠ ""))
              quantum_enabled := settings.quantum_enabled
              max_companies := settings.max_companies
              quantum_layers := settings.quantum_layers
              quantum_shots := settings.quantum_shots },
            ?_, rfl, List.filter_sublist companies, ?_, rfl, rfl, rfl, rfl⟩
    · simp [QuantumBatchForm.handleSubmit, hlen]
      exact ⟨c, hc, hne⟩
    · intro c2 hc2
      rw [List.mem_filter] at hc2
      exact of_decide_eq_true hc2.2

/-- Witness for C5: the theorem applied to a concrete all-blank list and to a
concrete list with one non-blank name. -/
theorem handleSubmit_blank_validation_witness :
    QuantumBatchForm.handleSubmit
        [QuantumBatchForm.emptyCompany, { QuantumBatchForm.emptyCompany with name := "  " }]
        QuantumBatchForm.initialQuantumSettings = none
    ∧ ∃ fd, QuantumBatchForm.handleSubmit
        [QuantumBatchForm.emptyCompany, { QuantumBatchForm.emptyCompany with name := " Tesla " }]
        QuantumBatchForm.initialQuantumSettings = some fd
        ∧ fd.companies
            = [QuantumBatchForm.emptyCompany,
               { QuantumBatchForm.emptyCompany with name := " Tesla " }].filter
                (fun c => decide (JsStr.trim c.name ≠ ""))
        ∧ fd.companies.Sublist
            [QuantumBatchForm.emptyCompany,
             { QuantumBatchForm.emptyCompany with name := " Tesla " }]
        ∧ (∀ c ∈ fd.companies, JsStr.trim c.name ≠ "")
        ∧ fd.quantum_enabled = QuantumBatchForm.initialQuantumSettings.quantum_enabled
        ∧ fd.max_companies = QuantumBatchForm.initialQuantumSettings.max_companies
        ∧ fd.quantum_layers = QuantumBatchForm.initialQuantumSettings.quantum_layers
        ∧ fd.quantum_shots = QuantumBatchForm.initialQuantumSettings.quantum_shots :=
  ⟨(handleSubmit_blank_validation
      [QuantumBatchForm.emptyCompany, { QuantumBatchForm.emptyCompany with name := "  " }]
      QuantumBatchForm.initialQuantumSettings).1 (by decide),
   (handleSubmit_blank_validation
      [QuantumBatchForm.emptyCompany, { QuantumBatchForm.emptyCompany with name := " Tesla " }]
      QuantumBatchForm.initialQuantumSettings).2
      ⟨{ QuantumBatchForm.emptyCompany with name := " Tesla " }, by decide, by decide⟩⟩

/-- Claim C6: addCompany appends exactly one blank row when the company count is
strictly below the cap in force, leaves the list unchanged otherwise, and
never grows the list beyond the cap when the list currently respects it. -/
theorem addCompany_cap_spec (companies : List QuantumBatchForm.Company) (cap : Nat) :
    (companies.length < cap →
      QuantumBatchForm.addCompany companies cap
          = companies ++ [QuantumBatchForm.emptyCompany]
      ∧ (QuantumBatchForm.addCompany companies cap).length = companies.length + 1)
    ∧ (¬ companies.length < cap → QuantumBatchForm.addCompany companies cap = companies)
    ∧ (companies.length ≤ cap → (QuantumBatchForm.addCompany companies cap).length ≤ cap) := by
  refine ⟨fun h => ⟨?_, ?_⟩, fun h => ?_, fun h => ?_⟩
  · simp [QuantumBatchForm.addCompany, h]
  · simp [QuantumBatchForm.addCompany, h]
  · simp [QuantumBatchForm.addCompany, h]
  · by_cases hlt : companies.length < cap
    · simp [QuantumBatchForm.addCompany, hlt]
      omega
    · simp [QuantumBatchForm.addCompany, hlt]
      omega

/-- Witness for C6: the theorem applied at a concrete list below the cap, at
the cap, and within the cap. -/
theorem addCompany_cap_spec_witness :
    QuantumBatchForm.addCompany [QuantumBatchForm.emptyCompany] 2
        = [QuantumBatchForm.emptyCompany] ++ [QuantumBatchForm.emptyCompany]
    ∧ QuantumBatchForm.addCompany
        [QuantumBatchForm.emptyCompany, QuantumBatchForm.emptyCompany] 2
        = [QuantumBatchForm.emptyCompany, QuantumBatchForm.emptyCompany]
    ∧ (QuantumBatchForm.addCompany [QuantumBatchForm.emptyCompany] 2).length ≤ 2 :=
  ⟨((addCompany_cap_spec [QuantumBatchForm.emptyCompany] 2).1 (by decide)).1,
   (addCompany_cap_spec
      [QuantumBatchForm.emptyCompany, QuantumBatchForm.emptyCompany] 2).2.1 (by decide),
   (addCompany_cap_spec [QuantumBatchForm.emptyCompany] 2).2.2 (by decide)⟩

/-- Indexed entries strictly above the removed index all survive the filter. -/
theorem enumFrom_filter_ne_of_lt {α : Type} (l : List α) (n i : Nat) (h : i < n) :
    (List.enumFrom n l).filter (fun p => p.1 != i) = List.enumFrom n l := by
  induction l generalizing n with
  | nil => rfl
  | cons a t ih =>
    have hne : (n != i) = true := by
      simp
      omega
    simp only [List.enumFrom, List.filter, hne]
    rw [ih (n + 1) (by omega)]

/-- The index-based filter removes at most one entry. -/
theorem length_enumFrom_filter_ne {α : Type} (l : List α) (n i : Nat) :
    l.length - 1 ≤ ((List.enumFrom n l).filter (fun p => p.1 != i)).length := by
  induction l generalizing n with
  | nil => simp
  | cons a t ih =>
    by_cases hni : n = i
    · subst hni
      have hrest := enumFrom_filter_ne_of_lt t (n + 1) n (by omega)
      have hbeq : (n != n) = false := by simp
      simp only [List.enumFrom, List.filter, hbeq, hrest, List.length_cons,
        List.enumFrom_length]
      omega
    · have hbeq : (n != i) = true := by simp [hni]
      have := ih (n + 1)
      simp only [List.enumFrom, List.filter, hbeq, List.length_cons]
      omega

/-- The three list operations of the batch form each preserve nonemptiness. -/
theorem applyFormOp_length (l : List QuantumBatchForm.Company)
    (op : QuantumBatchForm.FormOp) (h : 1 ≤ l.length) :
    1 ≤ (QuantumBatchForm.applyFormOp l op).length := by
  cases op with
  | add cap =>
    simp only [QuantumBatchForm.applyFormOp, QuantumBatchForm.addCompany]
    split_ifs
    · simp
    · exact h
  | remove i =>
    simp only [QuantumBatchForm.applyFormOp, QuantumBatchForm.removeCompany]
    split_ifs with hlen
    · rw [List.length_map]
      have hbound := length_enumFrom_filter_ne l 0 i
      have henum : l.enum = List.enumFrom 0 l := rfl
      rw [henum]
      omega
    · exact h
  | update i f v =>
    simp only [QuantumBatchForm.applyFormOp, QuantumBatchForm.updateCompany]
    rw [List.length_map, List.enum_length]
    exact h

/-- Claim C9: the quantum batch form's companies list is never empty: the initial
state has one row, addCompany only lengthens the list, updateCompany preserves
its length, removeCompany only removes a row when more than one row exists,
and any sequence of these operations from the initial state keeps at least one
row. -/
theorem companies_list_never_empty :
    (∀ (l : List QuantumBatchForm.Company) (cap : Nat),
      l.length ≤ (QuantumBatchForm.addCompany l cap).length)
    ∧ (∀ (l : List QuantumBatchForm.Company) (i : Nat) (f : QuantumBatchForm.CompanyField)
        (v : String), (QuantumBatchForm.updateCompany l i f v).length = l.length)
    ∧ (∀ (l : List QuantumBatchForm.Company) (i : Nat),
        1 ≤ l.length → 1 ≤ (QuantumBatchForm.removeCompany l i).length)
    ∧ 1 ≤ QuantumBatchForm.initialCompanies.length
    ∧ (∀ ops : List QuantumBatchForm.FormOp,
        1 ≤ (QuantumBatchForm.runFormOps ops).length) := by
  refine ⟨?_, ?_, ?_, ?_, ?_⟩
  · intro l cap
    unfold QuantumBatchForm.addCompany
    split_ifs
    · simp
    · exact Nat.le_refl _
  · intro l i f v
    unfold QuantumBatchForm.updateCompany
    rw [List.length_map, List.enum_length]
  · intro l i h
    exact applyFormOp_length l (QuantumBatchForm.FormOp.remove i) h
  · decide
  · have gen : ∀ (ops : List QuantumBatchForm.FormOp) (l : List QuantumBatchForm.Company),
        1 ≤ l.length → 1 ≤ (ops.foldl QuantumBatchForm.applyFormOp l).length := by
      intro ops
      induction ops with
      | nil => intro l h; exact h
      | cons op t ih =>
        intro l h
        exact ih _ (applyFormOp_length l op h)
    intro ops
    exact gen ops QuantumBatchForm.initialCompanies (by decide)

/-- The loader invariant holds initially. -/
theorem gInv_initG (ga sd ak : Bool) : LocationInput.GInv (LocationInput.initG ga sd ak) := by
  refine ⟨?_, ?_, ?_, ?_, ?_⟩ <;> simp [LocationInput.initG]

/-- The loader invariant is preserved by every environment event. -/
theorem gInv_gStep (s : LocationInput.GState) (e : LocationInput.GEvent)
    (h : LocationInput.GInv s) : LocationInput.GInv (LocationInput.gStep s e) := by
  obtain ⟨h1, h2, h3, h4, h5⟩ := h
  cases e with
  | call =>
    show LocationInput.GInv (LocationInput.loadGoogleMapsScript s).1
    unfold LocationInput.loadGoogleMapsScript
    by_cases c1 : s.isScriptLoaded = true ∧ s.googleAvail = true
    · rw [if_pos c1]
      exact ⟨h1, h2, h3, h4, h5⟩
    · rw [if_neg c1]
      by_cases c2 : s.isScriptLoading = true ∧ s.scriptLoadPromise.isSome = true
      · rw [if_pos c2]
        exact ⟨h1, h2, h3, h4, h5⟩
      · rw [if_neg c2]
        by_cases c3 : s.scriptInDoc = true ∧ s.googleAvail = true
        · rw [if_pos c3]
          exact ⟨h1, h2, fun _ => c3.2, fun hl => absurd ⟨hl, h5 hl⟩ c2, h5⟩
        · rw [if_neg c3]
          by_cases c4 : s.googleAvail = true
          · rw [if_pos c4]
            exact ⟨h1, h2, fun _ => c4, by simp, by simp⟩
          · rw [if_neg c4]
            by_cases c5 : s.scriptInDoc = false
            · rw [if_pos c5]
              by_cases c6 : s.apiKeyPresent = false
              · rw [if_pos c6]
                exact ⟨h1, h2, fun hld => absurd (h3 hld) c4, by simp, by simp⟩
              · rw [if_neg c6]
                have hcount : s.appendCount = 0 := by
                  rcases Nat.lt_or_ge s.appendCount 1 with hlt | hge
                  · omega
                  · have heq : s.appendCount = 1 := by omega
                    rw [h2 heq] at c5
                    exact absurd c5 (by simp)
                refine ⟨by simp [hcount], fun _ => rfl,
                  fun hld => absurd (h3 hld) c4, fun _ => ?_, fun _ => rfl⟩
                cases hld : s.isScriptLoaded with
                | false => rfl
                | true => exact absurd (h3 hld) c4
            · rw [if_neg c5]
              refine ⟨h1, h2, fun hld => absurd (h3 hld) c4, fun _ => ?_, fun _ => rfl⟩
              cases hld : s.isScriptLoaded with
              | false => rfl
              | true => exact absurd (h3 hld) c4
  | scriptCallback =>
    simp only [LocationInput.gStep]
    split_ifs with c
    · exact ⟨h1, fun hc => c, fun _ => rfl, by simp, by simp⟩
    · exact ⟨h1, h2, h3, h4, h5⟩
  | scriptError =>
    simp only [LocationInput.gStep]
    split_ifs with c
    · exact ⟨h1, h2, h3, by simp, by simp⟩
    · exact ⟨h1, h2, h3, h4, h5⟩
  | watcherTick =>
    simp only [LocationInput.gStep]
    split_ifs with c
    · exact ⟨h1, h2, fun _ => (Bool.and_eq_true _ _ ▸ c).2, by simp, by simp⟩
    · exact ⟨h1, h2, h3, h4, h5⟩
  | watcherTimeout =>
    simp only [LocationInput.gStep]
    split_ifs with c1 c2
    · exact ⟨h1, h2, h3, h4, h5⟩
    · exact ⟨h1, h2, h3, by simp, by simp⟩
    · exact ⟨h1, h2, h3, h4, h5⟩
  | googleArrives =>
    exact ⟨h1, h2, fun _ => rfl, h4, h5⟩

/-- The loader invariant holds in every reachable state. -/
theorem gInv_runG (ga sd ak : Bool) (events : List LocationInput.GEvent) :
    LocationInput.GInv (LocationInput.runG (LocationInput.initG ga sd ak) events) := by
  have gen : ∀ (evs : List LocationInput.GEvent) (s : LocationInput.GState),
      LocationInput.GInv s → LocationInput.GInv (LocationInput.runG s evs) := by
    intro evs
    induction evs with
    | nil => intro s h; exact h
    | cons e t ih =>
      intro s h
      exact ih _ (gInv_gStep s e h)
  exact gen events _ (gInv_initG ga sd ak)

/-- Claim C7: the Google Maps script loader has init-once semantics: in every state
reachable by calls and environment events from any initial environment, at most
one script element has been appended to the document; while a load is in
flight every call returns the stored pending promise unchanged and performs no
state change; and once loading has succeeded every call returns an
already-resolved promise and performs no state change. -/
theorem loadGoogleMapsScript_init_once (ga sd ak : Bool)
    (events : List LocationInput.GEvent) :
    (LocationInput.runG (LocationInput.initG ga sd ak) events).appendCount ≤ 1
    ∧ (∀ pid : Nat,
        (LocationInput.runG (LocationInput.initG ga sd ak) events).isScriptLoading = true →
        (LocationInput.runG (LocationInput.initG ga sd ak) events).scriptLoadPromise = some pid →
        LocationInput.loadGoogleMapsScript
            (LocationInput.runG (LocationInput.initG ga sd ak) events)
          = (LocationInput.runG (LocationInput.initG ga sd ak) events,
             LocationInput.LoadResult.promise pid))
    ∧ ((LocationInput.runG (LocationInput.initG ga sd ak) events).isScriptLoaded = true →
        LocationInput.loadGoogleMapsScript
            (LocationInput.runG (LocationInput.initG ga sd ak) events)
          = (LocationInput.runG (LocationInput.initG ga sd ak) events,
             LocationInput.LoadResult.resolvedFresh)) := by
  obtain ⟨h1, h2, h3, h4, h5⟩ := gInv_runG ga sd ak events
  refine ⟨h1, ?_, ?_⟩
  · intro pid hl hp
    have hld : (LocationInput.runG (LocationInput.initG ga sd ak) events).isScriptLoaded
        = false := h4 hl
    simp only [LocationInput.loadGoogleMapsScript]
    rw [if_neg (by simp [hld]), if_pos ⟨hl, by simp [hp]⟩, hp]
    rfl
  · intro hld
    simp only [LocationInput.loadGoogleMapsScript]
    rw [if_pos ⟨hld, h3 hld⟩]

/-- Witness for C7: the theorem applied to the trace of a single call from the
empty environment: the call left a pending promise with identifier 0, at most
one script has been appended, and a second call returns that same promise. -/
theorem loadGoogleMapsScript_init_once_witness :
    (LocationInput.runG (LocationInput.initG false false true)
        [LocationInput.GEvent.call]).appendCount ≤ 1
    ∧ LocationInput.loadGoogleMapsScript
        (LocationInput.runG (LocationInput.initG false false true)
          [LocationInput.GEvent.call])
      = (LocationInput.runG (LocationInput.initG false false true)
          [LocationInput.GEvent.call],
         LocationInput.LoadResult.promise 0) :=
  ⟨(loadGoogleMapsScript_init_once false false true [LocationInput.GEvent.call]).1,
   (loadGoogleMapsScript_init_once false false true [LocationInput.GEvent.call]).2.1 0
      (by decide) (by decide)⟩

/-- Witness for C9: the removal clause applied at a concrete two-row list. -/
theorem companies_list_never_empty_witness :
    1 ≤ ([QuantumBatchForm.emptyCompany, QuantumBatchForm.emptyCompany] :
        List QuantumBatchForm.Company).length
    ∧ 1 ≤ (QuantumBatchForm.removeCompany
        [QuantumBatchForm.emptyCompany, QuantumBatchForm.emptyCompany] 0).length :=
  ⟨by decide,
   companies_list_never_empty.2.2.1
      [QuantumBatchForm.emptyCompany, QuantumBatchForm.emptyCompany] 0 (by decide)⟩

/-- Mapping a constant function yields a replicated list. -/
theorem map_const_eq_replicate {α β : Type} (l : List α) (b : β) :
    l.map (fun _ => b) = List.replicate l.length b := by
  induction l with
  | nil => rfl
  | cons a t ih => simp [List.replicate, ih]

/-- Claim C8: in the queries panel, a finalized query with one of the four valid
categories is selected by exactly one category section, namely the one equal to
its category (the section whose name its category string starts with); every
section renders all matching in-flight streaming queries before all matching
finalized queries; and the collapsed summary counts exactly the finalized
queries. -/
theorem researchQueries_sections_spec (qs : List Types.Query)
    (st : List (String × Types.StreamingQuery)) (q : Types.Query)
    (hq : q ∈ qs) (hcat : q.category ∈ ResearchQueries.categories) :
    ResearchQueries.categories.filter
        (fun c => decide (q ∈ qs.filter (fun q2 => JsStr.startsWith q2.category c)))
      = [q.category]
    ∧ (∀ c, (ResearchQueries.renderedSection c st qs).map ResearchQueries.kindOf
        = List.replicate (st.filter (fun kv => JsStr.startsWith kv.1 c)).length
            ResearchQueries.ItemKind.streaming
          ++ List.replicate (qs.filter (fun q2 => JsStr.startsWith q2.category c)).length
            ResearchQueries.ItemKind.final)
    ∧ ResearchQueries.collapsedSummaryCount qs = qs.length := by
  refine ⟨?_, ?_, rfl⟩
  · have hpt : ∀ c, (decide (q ∈ qs.filter (fun q2 => JsStr.startsWith q2.category c)))
        = JsStr.startsWith q.category c := by
      intro c
      cases hb : JsStr.startsWith q.category c with
      | true =>
        apply decide_eq_true
        rw [List.mem_filter]
        exact ⟨hq, hb⟩
      | false =>
        apply decide_eq_false
        intro hmem
        rw [List.mem_filter] at hmem
        rw [hmem.2] at hb
        exact Bool.noConfusion hb
    rw [List.filter_congr (fun c _ => hpt c)]
    simp only [ResearchQueries.categories, List.mem_cons, List.not_mem_nil, or_false] at hcat
    rcases hcat with h | h | h | h <;> rw [h] <;> decide
  · intro c
    unfold ResearchQueries.renderedSection
    rw [List.map_append, List.map_map, List.map_map]
    have hs : (ResearchQueries.kindOf ∘ fun kv : String × Types.StreamingQuery =>
        ResearchQueries.RenderedItem.streaming kv.1 kv.2.text)
        = fun _ => ResearchQueries.ItemKind.streaming := rfl
    have hf : (ResearchQueries.kindOf ∘ fun q2 : Types.Query =>
        ResearchQueries.RenderedItem.final q2.text)
        = fun _ => ResearchQueries.ItemKind.final := rfl
    rw [hs, hf, map_const_eq_replicate, map_const_eq_replicate]

/-- Witness for C8: the theorem applied to a concrete query list with one
finalized financial query and one streaming news query. -/
theorem researchQueries_sections_spec_witness :
    ResearchQueries.categories.filter
        (fun c => decide ((⟨"financial", "q1"⟩ : Types.Query) ∈
          ([⟨"financial", "q1"⟩] : List Types.Query).filter
            (fun q2 => JsStr.startsWith q2.category c)))
      = ["financial"]
    ∧ ResearchQueries.collapsedSummaryCount ([⟨"financial", "q1"⟩] : List Types.Query)
      = ([⟨"financial", "q1"⟩] : List Types.Query).length :=
  ⟨(researchQueries_sections_spec [⟨"financial", "q1"⟩] [("news_0", ⟨"t"⟩)]
      ⟨"financial", "q1"⟩ (by decide) (by decide)).1,
   (researchQueries_sections_spec [⟨"financial", "q1"⟩] [("news_0", ⟨"t"⟩)]
      ⟨"financial", "q1"⟩ (by decide) (by decide)).2.2⟩
